import Mathlib

/-!
Shallow embedding of the configuration and problem-metadata subsystem of the
vigra random forest (include/vigra/random_forest/rf_common.hxx) and of the
pixel-copy utility (include/vigra/copyimage.hxx).

Modelling conventions:
* C++ `double` values that flow through the serialization codec are modelled
  as rationals (ℚ).  The codec only stores and converts values, it never
  computes with them, and every conversion exercised by the statements below
  is exact on the values involved (ints of at most 32 bits are exactly
  representable in a C++ double).
* C++ `int` is modelled as ℤ.  `size_t` results are modelled as ℤ as well.
* A `vigra_precondition` failure (throwing `ContractViolation`, the
  PreconditionViolation / InvalidArgument of the specification) is modelled
  by returning `Except.error`; the error value carries the state of the
  mutated object (or buffer) at the moment the exception is raised, so that
  mutation-on-failure can be stated.
* Function pointer fields (`training_set_func_`, `mtry_func_`) are modelled
  by their only observable aspect in the embedded operations, their
  null / non-null status, as a `Bool` (serialize writes a presence flag,
  unserialize skips them, operator== ignores them).
-/

namespace Vigra

/-- C++ conversion of a floating point value to an integer type truncates
toward zero.  Division is only applied to non-negative numerators, where
all integer division conventions coincide with truncation. -/
def truncQ (q : ℚ) : ℤ :=
  if 0 ≤ q.num then q.num / (q.den : ℤ) else -((-q.num) / (q.den : ℤ))

/-- C++ contextual conversion of an arithmetic value to `bool`: nonzero. -/
def boolOfQ (q : ℚ) : Bool := q ≠ 0

/-- C++ conversion of `bool` to `double`: 0 or 1. -/
def boolToQ (b : Bool) : ℚ := if b then 1 else 0

/-- C++ conversion of `bool` to `int`: 0 or 1 (used by `bool + 1`). -/
def boolToInt (b : Bool) : ℤ := if b then 1 else 0

theorem truncQ_intCast (n : ℤ) : truncQ (n : ℚ) = n := by
  simp only [truncQ, Rat.num_intCast, Rat.den_intCast, Int.natCast_one]
  split <;> omega

theorem boolOfQ_boolToQ (b : Bool) : boolOfQ (boolToQ b) = b := by
  cases b <;> simp [boolOfQ, boolToQ]

/-- `enum RF_OptionTag` of rf_common.hxx (ordinals 0..8 in this order). -/
inductive RF_OptionTag where
  | RF_EQUAL
  | RF_PROPORTIONAL
  | RF_EXTERNAL
  | RF_NONE
  | RF_FUNCTION
  | RF_LOG
  | RF_SQRT
  | RF_CONST
  | RF_ALL
  deriving DecidableEq

open RF_OptionTag

/-- Ordinal of an `RF_OptionTag` (its value as a C++ unscoped enum). -/
def tagToInt : RF_OptionTag → ℤ
  | RF_EQUAL => 0
  | RF_PROPORTIONAL => 1
  | RF_EXTERNAL => 2
  | RF_NONE => 3
  | RF_FUNCTION => 4
  | RF_LOG => 5
  | RF_SQRT => 6
  | RF_CONST => 7
  | RF_ALL => 8

/-- C++ cast of an integer back to `RF_OptionTag`.  Values outside 0..8 do
not correspond to an enumerator (undefined in the source); the model maps
them to `RF_ALL`.  No statement below evaluates the out-of-range case. -/
def tagOfInt (n : ℤ) : RF_OptionTag :=
  if n = 0 then RF_EQUAL
  else if n = 1 then RF_PROPORTIONAL
  else if n = 2 then RF_EXTERNAL
  else if n = 3 then RF_NONE
  else if n = 4 then RF_FUNCTION
  else if n = 5 then RF_LOG
  else if n = 6 then RF_SQRT
  else if n = 7 then RF_CONST
  else RF_ALL

/-- C++ cast `RF_OptionTag(*iter)` of a double: convert to int, then to the
enum. -/
def tagOfQ (q : ℚ) : RF_OptionTag := tagOfInt (truncQ q)

/-- C++ conversion of an `RF_OptionTag` to `double` (via its ordinal). -/
def tagToQ (t : RF_OptionTag) : ℚ := (tagToInt t : ℚ)

theorem tagOfQ_tagToQ (t : RF_OptionTag) : tagOfQ (tagToQ t) = t := by
  cases t <;> decide

/-- `class RandomForestOptions` of rf_common.hxx: the data members, in
declaration order. -/
structure RandomForestOptions where
  training_set_proportion_ : ℚ
  training_set_size_ : ℤ
  training_set_func_ : Bool
  training_set_calc_switch_ : RF_OptionTag
  sample_with_replacement_ : Bool
  stratification_method_ : RF_OptionTag
  mtry_switch_ : RF_OptionTag
  mtry_ : ℤ
  mtry_func_ : Bool
  tree_count_ : ℤ
  min_split_node_size_ : ℤ
  deriving DecidableEq

namespace RandomForestOptions

/-- The default constructor `RandomForestOptions()`. -/
def default : RandomForestOptions where
  training_set_proportion_ := 1
  training_set_size_ := 0
  training_set_func_ := false
  training_set_calc_switch_ := RF_PROPORTIONAL
  sample_with_replacement_ := true
  stratification_method_ := RF_NONE
  mtry_switch_ := RF_SQRT
  mtry_ := 0
  mtry_func_ := false
  tree_count_ := 256
  min_split_node_size_ := 1

/-- `RandomForestOptions::serialized_size()`. -/
def serialized_size (_o : RandomForestOptions) : ℤ := 11

/-- `RandomForestOptions::serialize(begin, end)`: precondition
`end - begin == 11` is checked before anything is written; on success the
buffer holds the eleven slots in the fixed order of the source; on failure
the buffer is untouched (carried by the error). -/
def serialize (o : RandomForestOptions) (buf : List ℚ) :
    Except (List ℚ) (List ℚ) :=
  if buf.length = 11 then
    .ok [o.training_set_proportion_,
         (o.training_set_size_ : ℚ),
         boolToQ o.training_set_func_,
         tagToQ o.training_set_calc_switch_,
         boolToQ o.sample_with_replacement_,
         tagToQ o.stratification_method_,
         tagToQ o.mtry_switch_,
         (o.mtry_ : ℚ),
         boolToQ o.mtry_func_,
         (o.tree_count_ : ℚ),
         (o.min_split_node_size_ : ℚ)]
  else .error buf

/-- `RandomForestOptions::unserialize(begin, end)`: precondition
`end - begin == 11` is checked before anything is written; slots 2 and 8
(the function pointer presence flags) are skipped, the function pointer
fields are left unchanged. -/
def unserialize (o : RandomForestOptions) (buf : List ℚ) :
    Except RandomForestOptions RandomForestOptions :=
  if buf.length = 11 then
    .ok { o with
      training_set_proportion_ := buf.getD 0 0,
      training_set_size_ := truncQ (buf.getD 1 0),
      training_set_calc_switch_ := tagOfQ (buf.getD 3 0),
      sample_with_replacement_ := boolOfQ (buf.getD 4 0),
      stratification_method_ := tagOfQ (buf.getD 5 0),
      mtry_switch_ := tagOfQ (buf.getD 6 0),
      mtry_ := truncQ (buf.getD 7 0),
      tree_count_ := truncQ (buf.getD 9 0),
      min_split_node_size_ := truncQ (buf.getD 10 0) }
  else .error o

/-- `RandomForestOptions::use_stratification(in)`: the precondition restricts
the tag to the four stratification tags; it is checked before the assignment,
so on failure the object is unchanged (carried by the error). -/
def use_stratification (o : RandomForestOptions) (tag : RF_OptionTag) :
    Except RandomForestOptions RandomForestOptions :=
  if tag = RF_EQUAL ∨ tag = RF_PROPORTIONAL ∨ tag = RF_EXTERNAL ∨ tag = RF_NONE
  then .ok { o with stratification_method_ := tag }
  else .error o

end RandomForestOptions

/-- `enum ProblemSpec::Problem_t` (ordinals 0..2). -/
inductive Problem_t where
  | REGRESSION
  | CLASSIFICATION
  | CHECKLATER
  deriving DecidableEq

/-- `enum ProblemSpec::Types_t` (ordinals 0..10, in declaration order). -/
inductive Types_t where
  | UInt8_t
  | UInt16_t
  | UInt32_t
  | UInt64_t
  | Int8_t
  | Int16_t
  | Int32_t
  | Int64_t
  | double_t
  | float_t
  | UNKNOWN
  deriving DecidableEq

/-- Ordinal of a `Problem_t`. -/
def problemToInt : Problem_t → ℤ
  | .REGRESSION => 0
  | .CLASSIFICATION => 1
  | .CHECKLATER => 2

/-- C++ cast of an integer back to `Problem_t`; values outside 0..2 are
undefined in the source and modelled as `CHECKLATER`. -/
def problemOfInt (n : ℤ) : Problem_t :=
  if n = 0 then .REGRESSION else if n = 1 then .CLASSIFICATION else .CHECKLATER

/-- C++ cast `Problem_t(*iter)` of a double. -/
def problemOfQ (q : ℚ) : Problem_t := problemOfInt (truncQ q)

/-- C++ conversion of a `Problem_t` to `double`. -/
def problemToQ (t : Problem_t) : ℚ := (problemToInt t : ℚ)

/-- Ordinal of a `Types_t`. -/
def typesToInt : Types_t → ℤ
  | .UInt8_t => 0
  | .UInt16_t => 1
  | .UInt32_t => 2
  | .UInt64_t => 3
  | .Int8_t => 4
  | .Int16_t => 5
  | .Int32_t => 6
  | .Int64_t => 7
  | .double_t => 8
  | .float_t => 9
  | .UNKNOWN => 10

/-- C++ cast of an integer back to `Types_t`; values outside 0..10 are
undefined in the source and modelled as `UNKNOWN`. -/
def typesOfInt (n : ℤ) : Types_t :=
  if n = 0 then .UInt8_t
  else if n = 1 then .UInt16_t
  else if n = 2 then .UInt32_t
  else if n = 3 then .UInt64_t
  else if n = 4 then .Int8_t
  else if n = 5 then .Int16_t
  else if n = 6 then .Int32_t
  else if n = 7 then .Int64_t
  else if n = 8 then .double_t
  else if n = 9 then .float_t
  else .UNKNOWN

/-- C++ cast `Types_t(*iter)` of a double. -/
def typesOfQ (q : ℚ) : Types_t := typesOfInt (truncQ q)

/-- C++ conversion of a `Types_t` to `double`. -/
def typesToQ (t : Types_t) : ℚ := (typesToInt t : ℤ)

/-!
Numeric conversions used when one logical class label is stored in all ten
catalogs.  For the unsigned and signed fixed-width integer targets the value
is truncated toward zero and reduced to the width of the target
(conversions whose truncated value does not fit the target are undefined
behaviour for floating point sources in C++; the model uses the wraparound
that the source exhibits for integral sources).  The `float` catalog is
modelled without binary32 rounding: every label value exercised below is
exactly representable.
-/

/-- Conversion to `UInt8`. -/
def toUInt8 (q : ℚ) : ℤ := truncQ q % 256

/-- Conversion to `UInt16`. -/
def toUInt16 (q : ℚ) : ℤ := truncQ q % 65536

/-- Conversion to `UInt32`. -/
def toUInt32 (q : ℚ) : ℤ := truncQ q % 4294967296

/-- Conversion to `UInt64`. -/
def toUInt64 (q : ℚ) : ℤ := truncQ q % 18446744073709551616

/-- Conversion to `Int8`. -/
def toInt8 (q : ℚ) : ℤ := (truncQ q + 128) % 256 - 128

/-- Conversion to `Int16`. -/
def toInt16 (q : ℚ) : ℤ := (truncQ q + 32768) % 65536 - 32768

/-- Conversion to `Int32`. -/
def toInt32 (q : ℚ) : ℤ := (truncQ q + 2147483648) % 4294967296 - 2147483648

/-- Conversion to `Int64`. -/
def toInt64 (q : ℚ) : ℤ :=
  (truncQ q + 9223372036854775808) % 18446744073709551616 - 9223372036854775808

/-- Conversion to `double` (identity in the model). -/
def toDouble (q : ℚ) : ℚ := q

/-- Conversion to `float` (binary32 rounding is not modelled). -/
def toFloat (q : ℚ) : ℚ := q

/-- `class ProblemSpec` of rf_common.hxx.  The ten class catalogs come from
the `make_dlh` macro block; `used_` is declared without an initializer in
the default constructor, which is modelled as `Option Bool` with `none` for
the indeterminate state. -/
structure ProblemSpec where
  UInt8_classes_ : List ℤ
  UInt16_classes_ : List ℤ
  UInt32_classes_ : List ℤ
  UInt64_classes_ : List ℤ
  Int8_classes_ : List ℤ
  Int16_classes_ : List ℤ
  Int32_classes_ : List ℤ
  Int64_classes_ : List ℤ
  double_classes_ : List ℚ
  float_classes_ : List ℚ
  column_count_ : ℤ
  class_count_ : ℤ
  row_count_ : ℤ
  actual_mtry_ : ℤ
  actual_msample_ : ℤ
  problem_type_ : Problem_t
  class_type_ : Types_t
  class_weights_ : List ℚ
  is_weighted : Bool
  used_ : Option Bool
  deriving DecidableEq

namespace ProblemSpec

/-- The default constructor `ProblemSpec()`: the member initializer list
sets the eight scalar fields; the catalogs and `class_weights_` are
default-constructed empty; `used_` is left uninitialized. -/
def default : ProblemSpec where
  UInt8_classes_ := []
  UInt16_classes_ := []
  UInt32_classes_ := []
  UInt64_classes_ := []
  Int8_classes_ := []
  Int16_classes_ := []
  Int32_classes_ := []
  Int64_classes_ := []
  double_classes_ := []
  float_classes_ := []
  column_count_ := 0
  class_count_ := 0
  row_count_ := 0
  actual_mtry_ := 0
  actual_msample_ := 0
  problem_type_ := .CHECKLATER
  class_type_ := .UNKNOWN
  class_weights_ := []
  is_weighted := false
  used_ := none

/-- `ProblemSpec::serialized_size()`: `8 + class_count_ * int(is_weighted + 1)`. -/
def serialized_size (p : ProblemSpec) : ℤ :=
  8 + p.class_count_ * (boolToInt p.is_weighted + 1)

/-- `ProblemSpec::unserialize(begin, end)`.  The checks and writes happen in
source order: check `end - begin >= 8`; pull `column_count_` and
`class_count_`; check `end - begin >= 8 + class_count_`; pull the remaining
six scalars; if the pulled weighted flag is set, check
`end - begin == 8 + 2 * class_count_`, append `class_count_` weights; then
append everything from the current position to `end` to all ten catalogs
(`ArrayVector::insert` appends, it does not replace).  Each error carries
the state of the object at the moment the precondition fails. -/
def unserialize (p : ProblemSpec) (buf : List ℚ) :
    Except ProblemSpec ProblemSpec :=
  if (buf.length : ℤ) < 8 then .error p
  else if (buf.length : ℤ) < 8 + truncQ (buf.getD 1 0) then
    .error { p with
      column_count_ := truncQ (buf.getD 0 0),
      class_count_ := truncQ (buf.getD 1 0) }
  else if boolOfQ (buf.getD 7 0) then
    if (buf.length : ℤ) ≠ 8 + 2 * truncQ (buf.getD 1 0) then
      .error { p with
        column_count_ := truncQ (buf.getD 0 0),
        class_count_ := truncQ (buf.getD 1 0),
        row_count_ := truncQ (buf.getD 2 0),
        actual_mtry_ := truncQ (buf.getD 3 0),
        actual_msample_ := truncQ (buf.getD 4 0),
        problem_type_ := problemOfQ (buf.getD 5 0),
        class_type_ := typesOfQ (buf.getD 6 0),
        is_weighted := boolOfQ (buf.getD 7 0) }
    else
      .ok { p with
        column_count_ := truncQ (buf.getD 0 0),
        class_count_ := truncQ (buf.getD 1 0),
        row_count_ := truncQ (buf.getD 2 0),
        actual_mtry_ := truncQ (buf.getD 3 0),
        actual_msample_ := truncQ (buf.getD 4 0),
        problem_type_ := problemOfQ (buf.getD 5 0),
        class_type_ := typesOfQ (buf.getD 6 0),
        is_weighted := boolOfQ (buf.getD 7 0),
        class_weights_ := p.class_weights_ ++
          (buf.drop 8).take (truncQ (buf.getD 1 0)).toNat,
        UInt8_classes_ := p.UInt8_classes_ ++
          ((buf.drop (8 + (truncQ (buf.getD 1 0)).toNat)).map toUInt8),
        UInt16_classes_ := p.UInt16_classes_ ++
          ((buf.drop (8 + (truncQ (buf.getD 1 0)).toNat)).map toUInt16),
        UInt32_classes_ := p.UInt32_classes_ ++
          ((buf.drop (8 + (truncQ (buf.getD 1 0)).toNat)).map toUInt32),
        UInt64_classes_ := p.UInt64_classes_ ++
          ((buf.drop (8 + (truncQ (buf.getD 1 0)).toNat)).map toUInt64),
        Int8_classes_ := p.Int8_classes_ ++
          ((buf.drop (8 + (truncQ (buf.getD 1 0)).toNat)).map toInt8),
        Int16_classes_ := p.Int16_classes_ ++
          ((buf.drop (8 + (truncQ (buf.getD 1 0)).toNat)).map toInt16),
        Int32_classes_ := p.Int32_classes_ ++
          ((buf.drop (8 + (truncQ (buf.getD 1 0)).toNat)).map toInt32),
        Int64_classes_ := p.Int64_classes_ ++
          ((buf.drop (8 + (truncQ (buf.getD 1 0)).toNat)).map toInt64),
        double_classes_ := p.double_classes_ ++
          ((buf.drop (8 + (truncQ (buf.getD 1 0)).toNat)).map toDouble),
        float_classes_ := p.float_classes_ ++
          ((buf.drop (8 + (truncQ (buf.getD 1 0)).toNat)).map toFloat) }
  else
    .ok { p with
      column_count_ := truncQ (buf.getD 0 0),
      class_count_ := truncQ (buf.getD 1 0),
      row_count_ := truncQ (buf.getD 2 0),
      actual_mtry_ := truncQ (buf.getD 3 0),
      actual_msample_ := truncQ (buf.getD 4 0),
      problem_type_ := problemOfQ (buf.getD 5 0),
      class_type_ := typesOfQ (buf.getD 6 0),
      is_weighted := boolOfQ (buf.getD 7 0),
      UInt8_classes_ := p.UInt8_classes_ ++ ((buf.drop 8).map toUInt8),
      UInt16_classes_ := p.UInt16_classes_ ++ ((buf.drop 8).map toUInt16),
      UInt32_classes_ := p.UInt32_classes_ ++ ((buf.drop 8).map toUInt32),
      UInt64_classes_ := p.UInt64_classes_ ++ ((buf.drop 8).map toUInt64),
      Int8_classes_ := p.Int8_classes_ ++ ((buf.drop 8).map toInt8),
      Int16_classes_ := p.Int16_classes_ ++ ((buf.drop 8).map toInt16),
      Int32_classes_ := p.Int32_classes_ ++ ((buf.drop 8).map toInt32),
      Int64_classes_ := p.Int64_classes_ ++ ((buf.drop 8).map toInt64),
      double_classes_ := p.double_classes_ ++ ((buf.drop 8).map toDouble),
      float_classes_ := p.float_classes_ ++ ((buf.drop 8).map toFloat) }

/-- Write `vals` into `buf` starting at position `s` (the effect of
`*iter = v; ++iter` runs and of `std::copy`); writes past the end of the
buffer would be undefined behaviour in the source and are truncated here. -/
def overwriteFrom (buf : List ℚ) (s : Nat) (vals : List ℚ) : List ℚ :=
  (buf.take s ++ vals ++ buf.drop (s + vals.length)).take buf.length

/-- `ProblemSpec::serialize(begin, end)`: precondition
`end - begin == serialized_size()` is checked before anything is written;
then the eight scalars are written at positions 0..7, the whole of
`class_weights_` at position 8 if weighted (the cursor then advances by
`class_count_`), and the whole `double` catalog after that.  On failure the
buffer is untouched (carried by the error). -/
def serialize (p : ProblemSpec) (buf : List ℚ) : Except (List ℚ) (List ℚ) :=
  if (buf.length : ℤ) ≠ p.serialized_size then .error buf
  else
    .ok (overwriteFrom
          (if p.is_weighted then
            overwriteFrom
              (overwriteFrom buf 0
                [(p.column_count_ : ℚ), (p.class_count_ : ℚ),
                 (p.row_count_ : ℚ), (p.actual_mtry_ : ℚ),
                 (p.actual_msample_ : ℚ), problemToQ p.problem_type_,
                 typesToQ p.class_type_, boolToQ p.is_weighted])
              8 p.class_weights_
           else
            overwriteFrom buf 0
              [(p.column_count_ : ℚ), (p.class_count_ : ℚ),
               (p.row_count_ : ℚ), (p.actual_mtry_ : ℚ),
               (p.actual_msample_ : ℚ), problemToQ p.problem_type_,
               typesToQ p.class_type_, boolToQ p.is_weighted])
          (if p.is_weighted then 8 + p.class_count_.toNat else 8)
          p.double_classes_)

/-- `ProblemSpec::make_from_map(in)`: pulls each scalar from the length-one
sequence stored under the field name and assigns (not appends)
`class_weights_`; the catalogs and `class_count_` consistency are not
touched.  `in[key][0]` on a missing key reads element 0 of an empty default
constructed vector (undefined behaviour in the source); the model reads 0. -/
def make_from_map (p : ProblemSpec) (m : String → List ℚ) : ProblemSpec :=
  { p with
    column_count_ := truncQ ((m "column_count_").getD 0 0),
    class_count_ := truncQ ((m "class_count_").getD 0 0),
    row_count_ := truncQ ((m "row_count_").getD 0 0),
    actual_mtry_ := truncQ ((m "actual_mtry_").getD 0 0),
    actual_msample_ := truncQ ((m "actual_msample_").getD 0 0),
    problem_type_ := problemOfQ ((m "problem_type_").getD 0 0),
    class_type_ := typesOfQ ((m "class_type_").getD 0 0),
    is_weighted := boolOfQ ((m "is_weighted").getD 0 0),
    class_weights_ := m "class_weights_" }

/-- `ProblemSpec::clear()`: sets `used_` to false, empties the ten catalogs
and the weights, and resets the scalars that appear in its body.
`row_count_` does not appear in the body and keeps its value. -/
def clear (p : ProblemSpec) : ProblemSpec :=
  { p with
    used_ := some false,
    UInt8_classes_ := [],
    UInt16_classes_ := [],
    UInt32_classes_ := [],
    UInt64_classes_ := [],
    Int8_classes_ := [],
    Int16_classes_ := [],
    Int32_classes_ := [],
    Int64_classes_ := [],
    double_classes_ := [],
    float_classes_ := [],
    class_weights_ := [],
    column_count_ := 0,
    class_count_ := 0,
    actual_mtry_ := 0,
    actual_msample_ := 0,
    problem_type_ := .CHECKLATER,
    class_type_ := .UNKNOWN,
    is_weighted := false }

/-- `ProblemSpec::column_count(in)`. -/
def column_count (p : ProblemSpec) (n : ℤ) : ProblemSpec :=
  { p with column_count_ := n }

/-- `ProblemSpec::classes_(begin, end)`: appends the conversion of every
input label to each of the ten catalogs, records the static element type of
the input range (`type_of(*begin)`) and sets `class_count_` to the input
length.  The input labels are modelled as rationals, their static C++ type
as the explicit `t` argument. -/
def classes_ (p : ProblemSpec) (t : Types_t) (labels : List ℚ) : ProblemSpec :=
  { p with
    UInt8_classes_ := p.UInt8_classes_ ++ labels.map toUInt8,
    UInt16_classes_ := p.UInt16_classes_ ++ labels.map toUInt16,
    UInt32_classes_ := p.UInt32_classes_ ++ labels.map toUInt32,
    UInt64_classes_ := p.UInt64_classes_ ++ labels.map toUInt64,
    Int8_classes_ := p.Int8_classes_ ++ labels.map toInt8,
    Int16_classes_ := p.Int16_classes_ ++ labels.map toInt16,
    Int32_classes_ := p.Int32_classes_ ++ labels.map toInt32,
    Int64_classes_ := p.Int64_classes_ ++ labels.map toInt64,
    double_classes_ := p.double_classes_ ++ labels.map toDouble,
    float_classes_ := p.float_classes_ ++ labels.map toFloat,
    class_type_ := t,
    class_count_ := (labels.length : ℤ) }

/-- `ProblemSpec::class_weights(begin, end)`: appends the weights and sets
the weighted flag. -/
def class_weights (p : ProblemSpec) (ws : List ℚ) : ProblemSpec :=
  { p with
    class_weights_ := p.class_weights_ ++ ws,
    is_weighted := true }

/-- `ProblemSpec::used()`. -/
def used (p : ProblemSpec) : Option Bool := p.used_

end ProblemSpec

/-- Modelled from the spec: the bounds behaviour of
`ArrayVector::operator[]`, used by `ProblemSpec::to_classlabel`, is not part
of the sources under review (only rf_common.hxx and copyimage.hxx are); the
spec states that `toClassLabel` fails with `IndexOutOfRange` for an index
outside `[0, class_count)`.  Indexing is therefore modelled as checked.  The
cast `out = typee_(typee_##_classes_[index])` applied by each of the ten
generated members is a cast of a value that already has the target type and
is the identity. -/
def to_classlabel {γ : Type} (cat : List γ) (index : ℤ) : Except String γ :=
  if h : 0 ≤ index ∧ index.toNat < cat.length then
    .ok (cat.get ⟨index.toNat, h.2⟩)
  else .error "IndexOutOfRange"

/-- The state a `ProblemSpec::unserialize` call leaves behind, whether the
call succeeded or raised. -/
def resSpec : Except ProblemSpec ProblemSpec → ProblemSpec
  | .ok q => q
  | .error q => q

/-- The catalog invariant: one list of logical class labels of length
`class_count_` such that every one of the ten catalogs is its image under
the conversion to the catalog element type (position `i` of every catalog
denotes the same class, the one with label `src i`). -/
def catalogInvariant (p : ProblemSpec) : Prop :=
  ∃ src : List ℚ,
    (src.length : ℤ) = p.class_count_ ∧
    p.UInt8_classes_ = src.map toUInt8 ∧
    p.UInt16_classes_ = src.map toUInt16 ∧
    p.UInt32_classes_ = src.map toUInt32 ∧
    p.UInt64_classes_ = src.map toUInt64 ∧
    p.Int8_classes_ = src.map toInt8 ∧
    p.Int16_classes_ = src.map toInt16 ∧
    p.Int32_classes_ = src.map toInt32 ∧
    p.Int64_classes_ = src.map toInt64 ∧
    p.double_classes_ = src.map toDouble ∧
    p.float_classes_ = src.map toFloat

/-- `detail::RF_DEFAULT`, the sentinel tag class.  It has no data members:
it is a singleton up to propositional equality. -/
structure RF_DEFAULT where
  mk ::

/-- `rf_default()`, the factory returning the process-wide sentinel. -/
def rf_default : RF_DEFAULT := ⟨⟩

/-- `detail::Value_Chooser<T, C>` primary template: `choose(t, c)` returns
its first argument, of type `T`, unchanged; `typedef T type`. -/
def Value_Chooser.choose {T C : Type} (t : T) (_c : C) : T := t

/-- `typedef T type` of the primary template. -/
def Value_Chooser.type (T _C : Type) : Type := T

/-- `detail::Value_Chooser<detail::RF_DEFAULT, C>` specialization, selected
by the static type of the first argument being the sentinel type:
`choose(t, c)` returns the default object `c`; `typedef C type`.  The
sentinel argument is never inspected. -/
def Value_Chooser_RF_DEFAULT.choose {C : Type} (_t : RF_DEFAULT) (c : C) : C := c

/-- `typedef C type` of the specialization. -/
def Value_Chooser_RF_DEFAULT.type (C : Type) : Type := C

/-!
Embedding of copyimage.hxx.  A 2-D image is a function from coordinates to
pixel values; the iterator pairs of the source (upper left, lower right)
become the extents `w` and `h`; the accessors and the
`static_cast<DestAccessor::value_type>` conversion become the `conv`
function applied to every written value.  Each function returns the final
destination image together with the trace of visited positions, in
visitation order.
-/

/-- One `da.set(v, dix)` at position `(x, y)`. -/
def writePix {β : Type} (img : Nat → Nat → β) (x y : Nat) (v : β) :
    Nat → Nat → β :=
  fun i j => if i = x ∧ j = y then v else img i j

/-- The inner `for(x = 0; x < w; ++x)` loop of `copyImage` at row `y`:
state is the destination image so far plus the visit trace. -/
def copyImageInner {α β : Type} (sa : Nat → Nat → α) (conv : α → β)
    (y : Nat) : Nat → ((Nat → Nat → β) × List (Nat × Nat)) →
    ((Nat → Nat → β) × List (Nat × Nat))
  | 0, st => st
  | Nat.succ w, st =>
    let st1 := copyImageInner sa conv y w st
    (writePix st1.1 w y (conv (sa w y)), st1.2 ++ [(w, y)])

/-- The outer `for(y = 0; y < h; ++y)` loop of `copyImage`. -/
def copyImageOuter {α β : Type} (sa : Nat → Nat → α) (conv : α → β)
    (w : Nat) : Nat → ((Nat → Nat → β) × List (Nat × Nat)) →
    ((Nat → Nat → β) × List (Nat × Nat))
  | 0, st => st
  | Nat.succ h, st => copyImageInner sa conv h w (copyImageOuter sa conv w h st)

/-- `copyImage(src_upperleft, src_lowerright, sa, dest_upperleft, da)` on a
`w` by `h` domain. -/
def copyImage {α β : Type} (w h : Nat) (sa : Nat → Nat → α) (conv : α → β)
    (dest : Nat → Nat → β) : (Nat → Nat → β) × List (Nat × Nat) :=
  copyImageOuter sa conv w h (dest, [])

/-- The inner loop of `copyImageIf` at row `y`: the write is gated by the
mask (`if(ma(mx)) da.set(...)`), the visit is not. -/
def copyImageIfInner {α β : Type} (sa : Nat → Nat → α)
    (ma : Nat → Nat → Bool) (conv : α → β) (y : Nat) :
    Nat → ((Nat → Nat → β) × List (Nat × Nat)) →
    ((Nat → Nat → β) × List (Nat × Nat))
  | 0, st => st
  | Nat.succ w, st =>
    let st1 := copyImageIfInner sa ma conv y w st
    (if ma w y then writePix st1.1 w y (conv (sa w y)) else st1.1,
     st1.2 ++ [(w, y)])

/-- The outer loop of `copyImageIf`. -/
def copyImageIfOuter {α β : Type} (sa : Nat → Nat → α)
    (ma : Nat → Nat → Bool) (conv : α → β) (w : Nat) :
    Nat → ((Nat → Nat → β) × List (Nat × Nat)) →
    ((Nat → Nat → β) × List (Nat × Nat))
  | 0, st => st
  | Nat.succ h, st =>
    copyImageIfInner sa ma conv h w (copyImageIfOuter sa ma conv w h st)

/-- `copyImageIf(src_upperleft, src_lowerright, sa, mask_upperleft, ma,
dest_upperleft, da)` on a `w` by `h` domain; the mask accessor value is
modelled after its contextual conversion to `bool`. -/
def copyImageIf {α β : Type} (w h : Nat) (sa : Nat → Nat → α)
    (ma : Nat → Nat → Bool) (conv : α → β) (dest : Nat → Nat → β) :
    (Nat → Nat → β) × List (Nat × Nat) :=
  copyImageIfOuter sa ma conv w h (dest, [])

/-- The row-major enumeration of the `w` by `h` domain: row 0 first, each
row left to right. -/
def rowMajor (w : Nat) : Nat → List (Nat × Nat)
  | 0 => []
  | Nat.succ h => rowMajor w h ++ (List.range w).map (fun x => (x, h))

/-! ## Claim theorems -/

open ProblemSpec in
/-- C4 counterexample: `clear()` does not reset `row_count_`.  A spec whose
`row_count_` is 5 still has `row_count_ = 5` after `clear()`, while a
default-constructed spec has `row_count_ = 0`. -/
theorem claim_C4_counterexample :
    ({ ProblemSpec.default with row_count_ := 5 } : ProblemSpec).clear.row_count_ ≠
      ProblemSpec.default.row_count_ := by
  decide

/-- C4 (amended): after `p.clear()` every field of `p` equals its value in a
default-constructed `ProblemSpec` (`column_count_ = 0`, `class_count_ = 0`,
`actual_mtry_ = 0`, `actual_msample_ = 0`, `problem_type_ = CHECKLATER`,
`class_type_ = UNKNOWN`, `is_weighted = false`, all ten class catalogs and
`class_weights_` empty) except `row_count_`, which keeps its previous value,
and `used_`, which `clear()` sets to false while the default constructor
leaves it uninitialized. -/
theorem claim_C4 (p : ProblemSpec) :
    p.clear = { ProblemSpec.default with
                  row_count_ := p.row_count_, used_ := some false } := rfl

/-- C6: `use_stratification(tag)` with a tag outside
{RF_EQUAL, RF_PROPORTIONAL, RF_EXTERNAL, RF_NONE} fails (InvalidArgument)
and leaves the object, in particular `stratification_method_`, unchanged;
with a tag in the set it sets `stratification_method_` to the tag and
returns the same object. -/
theorem claim_C6 :
    (∀ (o : RandomForestOptions) (tag : RF_OptionTag),
      ¬(tag = RF_EQUAL ∨ tag = RF_PROPORTIONAL ∨
        tag = RF_EXTERNAL ∨ tag = RF_NONE) →
      o.use_stratification tag = .error o) ∧
    (∀ (o : RandomForestOptions) (tag : RF_OptionTag),
      (tag = RF_EQUAL ∨ tag = RF_PROPORTIONAL ∨
       tag = RF_EXTERNAL ∨ tag = RF_NONE) →
      o.use_stratification tag = .ok { o with stratification_method_ := tag }) := by
  constructor <;> intro o tag h <;>
    simp [RandomForestOptions.use_stratification, h]

/-- C6 witness: RF_LOG is rejected without touching the default options;
RF_EQUAL is accepted and stored. -/
theorem claim_C6_witness :
    RandomForestOptions.default.use_stratification RF_LOG =
      .error RandomForestOptions.default ∧
    RandomForestOptions.default.use_stratification RF_EQUAL =
      .ok { RandomForestOptions.default with stratification_method_ := RF_EQUAL } :=
  ⟨claim_C6.1 RandomForestOptions.default RF_LOG (by decide),
   claim_C6.2 RandomForestOptions.default RF_EQUAL (by decide)⟩

/-- C7: for `class_count_ ≥ 0`, `ProblemSpec::serialized_size()` is
`8 + class_count_` when unweighted and `8 + 2 * class_count_` when
weighted; `RandomForestOptions::serialized_size()` is always 11. -/
theorem claim_C7 (p : ProblemSpec) (o : RandomForestOptions)
    (_h : 0 ≤ p.class_count_) :
    p.serialized_size =
      (if p.is_weighted then 8 + 2 * p.class_count_
       else 8 + p.class_count_) ∧
    o.serialized_size = 11 := by
  refine ⟨?_, rfl⟩
  cases hw : p.is_weighted
  · simp [ProblemSpec.serialized_size, boolToInt, hw]
  · simp [ProblemSpec.serialized_size, boolToInt, hw]
    ring

/-- A concrete weighted spec with three classes, used as a witness input. -/
def weightedSpec3 : ProblemSpec :=
  { ProblemSpec.default with class_count_ := 3, is_weighted := true }

/-- C7 witness: a weighted spec with three classes serializes to 14 slots;
the options object to 11. -/
theorem claim_C7_witness :
    (0 ≤ weightedSpec3.class_count_) ∧
    (weightedSpec3.serialized_size =
      if weightedSpec3.is_weighted then 8 + 2 * weightedSpec3.class_count_
      else 8 + weightedSpec3.class_count_) ∧
    RandomForestOptions.default.serialized_size = 11 :=
  ⟨by decide,
   (claim_C7 weightedSpec3 RandomForestOptions.default (by decide)).1,
   (claim_C7 weightedSpec3 RandomForestOptions.default (by decide)).2⟩

/-- C8: the primary `Value_Chooser<T, C>` returns its first argument
unchanged with its type `T` preserved (also as the member `type`); the
`Value_Chooser<RF_DEFAULT, C>` specialization returns the default object,
for every value of the sentinel (the sentinel is never inspected, and it is
unique anyway); the selection is by static type: the two cases are two
distinct declarations dispatched on the type alone. -/
theorem claim_C8 :
    (∀ (T C : Type) (t : T) (c : C), Value_Chooser.choose t c = t) ∧
    (∀ (C : Type) (s : RF_DEFAULT) (c : C),
      Value_Chooser_RF_DEFAULT.choose s c = c) ∧
    (∀ s : RF_DEFAULT, s = rf_default) ∧
    (∀ T C : Type, Value_Chooser.type T C = T) ∧
    (∀ C : Type, Value_Chooser_RF_DEFAULT.type C = C) :=
  ⟨fun _ _ _ _ => rfl, fun _ _ _ => rfl, fun _ => rfl,
   fun _ _ => rfl, fun _ => rfl⟩

/-- C10: the only `ProblemSpec` operation that writes `used_` is `clear()`,
which sets it to false; the default constructor leaves it uninitialized
(modelled `none`), every other operation carries it through unchanged, and
no operation ever sets it to true. -/
theorem claim_C10 :
    ProblemSpec.default.used_ = none ∧
    (∀ p : ProblemSpec, p.clear.used = some false) ∧
    (∀ (p : ProblemSpec) (n : ℤ), (p.column_count n).used_ = p.used_) ∧
    (∀ (p : ProblemSpec) (t : Types_t) (ls : List ℚ),
      (p.classes_ t ls).used_ = p.used_) ∧
    (∀ (p : ProblemSpec) (ws : List ℚ),
      (p.class_weights ws).used_ = p.used_) ∧
    (∀ (p : ProblemSpec) (m : String → List ℚ),
      (p.make_from_map m).used_ = p.used_) ∧
    (∀ (p : ProblemSpec) (buf : List ℚ),
      (resSpec (p.unserialize buf)).used_ = p.used_) := by
  refine ⟨rfl, fun p => rfl, fun p n => rfl, fun p t ls => rfl,
          fun p ws => rfl, fun p m => rfl, fun p buf => ?_⟩
  unfold ProblemSpec.unserialize
  split_ifs <;> rfl

/-- C2: unserializing a length-11 buffer produced by `serialize` reproduces
all nine non-function-pointer fields of the serialized options object,
whatever the target object held before. -/
theorem claim_C2 (o o2 : RandomForestOptions) (buf buf2 : List ℚ)
    (h : o.serialize buf = .ok buf2) :
    ∃ o3, o2.unserialize buf2 = .ok o3 ∧
      o3.training_set_proportion_ = o.training_set_proportion_ ∧
      o3.training_set_size_ = o.training_set_size_ ∧
      o3.training_set_calc_switch_ = o.training_set_calc_switch_ ∧
      o3.sample_with_replacement_ = o.sample_with_replacement_ ∧
      o3.stratification_method_ = o.stratification_method_ ∧
      o3.mtry_switch_ = o.mtry_switch_ ∧
      o3.mtry_ = o.mtry_ ∧
      o3.tree_count_ = o.tree_count_ ∧
      o3.min_split_node_size_ = o.min_split_node_size_ := by
  unfold RandomForestOptions.serialize at h
  split at h
  case isFalse => simp at h
  case isTrue hlen =>
    injection h with h
    subst h
    refine ⟨_, rfl, ?_, ?_, ?_, ?_, ?_, ?_, ?_, ?_, ?_⟩ <;>
      simp [RandomForestOptions.unserialize, truncQ_intCast,
            tagOfQ_tagToQ, boolOfQ_boolToQ]

/-- C2 witness: a default options object serialized into an 11-slot buffer
and unserialized into another default object reproduces the nine fields. -/
theorem claim_C2_witness :
    ∃ o3, RandomForestOptions.default.unserialize
        [1, 0, 0, 1, 1, 3, 6, 0, 0, 256, 1] = .ok o3 ∧
      o3.training_set_proportion_ =
        RandomForestOptions.default.training_set_proportion_ ∧
      o3.training_set_size_ = RandomForestOptions.default.training_set_size_ ∧
      o3.training_set_calc_switch_ =
        RandomForestOptions.default.training_set_calc_switch_ ∧
      o3.sample_with_replacement_ =
        RandomForestOptions.default.sample_with_replacement_ ∧
      o3.stratification_method_ =
        RandomForestOptions.default.stratification_method_ ∧
      o3.mtry_switch_ = RandomForestOptions.default.mtry_switch_ ∧
      o3.mtry_ = RandomForestOptions.default.mtry_ ∧
      o3.tree_count_ = RandomForestOptions.default.tree_count_ ∧
      o3.min_split_node_size_ =
        RandomForestOptions.default.min_split_node_size_ :=
  claim_C2 RandomForestOptions.default RandomForestOptions.default
    (List.replicate 11 0) [1, 0, 0, 1, 1, 3, 6, 0, 0, 256, 1] (by rfl)

/-- C1 counterexample: `ProblemSpec::unserialize` on a length-9 buffer whose
class-count slot reads 5 (required size `8 + 5 = 13`) raises its second
precondition, but only after `column_count_` and `class_count_` have been
overwritten: the target object is mutated on failure, refuting the claim
that all length validation happens before any field is written. -/
theorem claim_C1_counterexample :
    ProblemSpec.default.unserialize [1, 5, 0, 0, 0, 0, 0, 0, 0] =
      .error { ProblemSpec.default with column_count_ := 1, class_count_ := 5 } ∧
    ({ ProblemSpec.default with column_count_ := 1, class_count_ := 5 } :
        ProblemSpec) ≠ ProblemSpec.default :=
  ⟨by rfl, by decide⟩

/-- C1 (amended): `RandomForestOptions::serialize` / `unserialize` and
`ProblemSpec::serialize` check the exact buffer length before writing
anything and fail leaving the target (object or buffer) unmutated.
`ProblemSpec::unserialize` validates only `length ≥ 8` before it starts
writing: it fails before any write when the buffer is shorter than 8; when
the buffer is at least 8 but shorter than `8 + cc` (`cc` being the class
count read from the buffer) it fails with `column_count_` and `class_count_`
already overwritten; when the weighted flag read from the buffer is set and
the length differs from `8 + 2*cc` it fails with all eight scalar fields
already overwritten; and an unweighted buffer of any length `≥ 8 + cc` —
matching the required size or not — is accepted. -/
theorem claim_C1 :
    (∀ (o : RandomForestOptions) (buf : List ℚ), buf.length ≠ 11 →
      o.unserialize buf = .error o) ∧
    (∀ (o : RandomForestOptions) (buf : List ℚ), buf.length ≠ 11 →
      o.serialize buf = .error buf) ∧
    (∀ (p : ProblemSpec) (buf : List ℚ),
      (buf.length : ℤ) ≠ p.serialized_size →
      p.serialize buf = .error buf) ∧
    (∀ (p : ProblemSpec) (buf : List ℚ), (buf.length : ℤ) < 8 →
      p.unserialize buf = .error p) ∧
    (∀ (p : ProblemSpec) (buf : List ℚ),
      8 ≤ (buf.length : ℤ) →
      (buf.length : ℤ) < 8 + truncQ (buf.getD 1 0) →
      p.unserialize buf = .error { p with
        column_count_ := truncQ (buf.getD 0 0),
        class_count_ := truncQ (buf.getD 1 0) }) ∧
    (∀ (p : ProblemSpec) (buf : List ℚ),
      8 ≤ (buf.length : ℤ) →
      8 + truncQ (buf.getD 1 0) ≤ (buf.length : ℤ) →
      boolOfQ (buf.getD 7 0) = true →
      (buf.length : ℤ) ≠ 8 + 2 * truncQ (buf.getD 1 0) →
      p.unserialize buf = .error { p with
        column_count_ := truncQ (buf.getD 0 0),
        class_count_ := truncQ (buf.getD 1 0),
        row_count_ := truncQ (buf.getD 2 0),
        actual_mtry_ := truncQ (buf.getD 3 0),
        actual_msample_ := truncQ (buf.getD 4 0),
        problem_type_ := problemOfQ (buf.getD 5 0),
        class_type_ := typesOfQ (buf.getD 6 0),
        is_weighted := boolOfQ (buf.getD 7 0) }) ∧
    (∀ (p : ProblemSpec) (buf : List ℚ),
      8 ≤ (buf.length : ℤ) →
      8 + truncQ (buf.getD 1 0) ≤ (buf.length : ℤ) →
      boolOfQ (buf.getD 7 0) = false →
      ∃ q, p.unserialize buf = .ok q) := by
  refine ⟨?_, ?_, ?_, ?_, ?_, ?_, ?_⟩
  · intro o buf h; simp [RandomForestOptions.unserialize, h]
  · intro o buf h; simp [RandomForestOptions.serialize, h]
  · intro p buf h; simp [ProblemSpec.serialize, h]
  · intro p buf h
    unfold ProblemSpec.unserialize
    rw [if_pos h]
  · intro p buf h8 hlt
    have h1 : ¬((buf.length : ℤ) < 8) := by omega
    unfold ProblemSpec.unserialize
    rw [if_neg h1, if_pos hlt]
  · intro p buf h8 hcc hw hne
    have h1 : ¬((buf.length : ℤ) < 8) := by omega
    have h2 : ¬((buf.length : ℤ) < 8 + truncQ (buf.getD 1 0)) := by omega
    unfold ProblemSpec.unserialize
    rw [if_neg h1, if_neg h2, if_pos hw, if_pos hne]
  · intro p buf h8 hcc hw
    have h1 : ¬((buf.length : ℤ) < 8) := by omega
    have h2 : ¬((buf.length : ℤ) < 8 + truncQ (buf.getD 1 0)) := by omega
    have hw' : ¬(boolOfQ (buf.getD 7 0) = true) := by simp only [hw]; decide
    exact ⟨_, by unfold ProblemSpec.unserialize;
                 rw [if_neg h1, if_neg h2, if_neg hw']⟩

/-- C1 witness: each behaviour of the amended claim at a concrete input —
wrong-length buffers for the three validating codecs, a too-short buffer, a
buffer failing the second length check after two fields were written, a
weighted buffer failing the equality check after all eight scalars were
written, and an oversized unweighted buffer (length 11, required size 9)
that is accepted. -/
theorem claim_C1_witness :
    RandomForestOptions.default.unserialize [] =
      .error RandomForestOptions.default ∧
    RandomForestOptions.default.serialize [] = .error ([] : List ℚ) ∧
    ProblemSpec.default.serialize [1, 2] = .error [1, 2] ∧
    ProblemSpec.default.unserialize [1, 2, 3] = .error ProblemSpec.default ∧
    ProblemSpec.default.unserialize [3, 5, 0, 0, 0, 0, 0, 0, 0] =
      .error { ProblemSpec.default with
                column_count_ := 3, class_count_ := 5 } ∧
    ProblemSpec.default.unserialize [0, 1, 0, 0, 0, 2, 10, 1, 9] =
      .error { ProblemSpec.default with
                class_count_ := 1, is_weighted := true } ∧
    (∃ q, ProblemSpec.default.unserialize
        [0, 1, 0, 0, 0, 2, 10, 0, 5, 6, 7] = .ok q) :=
  ⟨claim_C1.1 RandomForestOptions.default [] (by decide),
   claim_C1.2.1 RandomForestOptions.default [] (by decide),
   claim_C1.2.2.1 ProblemSpec.default [1, 2] (by decide),
   claim_C1.2.2.2.1 ProblemSpec.default [1, 2, 3] (by decide),
   claim_C1.2.2.2.2.1 ProblemSpec.default [3, 5, 0, 0, 0, 0, 0, 0, 0]
     (by decide) (by decide),
   claim_C1.2.2.2.2.2.1 ProblemSpec.default [0, 1, 0, 0, 0, 2, 10, 1, 9]
     (by decide) (by decide) (by decide) (by decide),
   claim_C1.2.2.2.2.2.2 ProblemSpec.default [0, 1, 0, 0, 0, 2, 10, 0, 5, 6, 7]
     (by decide) (by decide) (by decide)⟩

/-- A spec holding one class label, obtained by `classes_` on a default
spec: it satisfies the catalog invariant. -/
def specOne : ProblemSpec := ProblemSpec.default.classes_ Types_t.Int32_t [5]

/-- C3 counterexample: `classes_` appends to the ten catalogs but overwrites
`class_count_` with the new input length, so calling it on a spec that
already satisfies the catalog invariant with one class leaves catalogs of
length 2 with `class_count_ = 1`: the invariant is not preserved. -/
theorem claim_C3_counterexample :
    catalogInvariant specOne ∧
    ¬ catalogInvariant (specOne.classes_ Types_t.Int32_t [7]) := by
  constructor
  · exact ⟨[5], by decide⟩
  · rintro ⟨src, hlen, h8, -⟩
    have hA : (specOne.classes_ Types_t.Int32_t [7]).UInt8_classes_.length = 2 := by
      decide
    have hB : (specOne.classes_ Types_t.Int32_t [7]).class_count_ = 1 := by decide
    rw [h8, List.length_map] at hA
    rw [hB] at hlen
    omega

/-- C3 (amended): `clear` establishes the catalog invariant (all ten
catalogs of equal length `class_count_`, position `i` everywhere denoting
the same class); `column_count` and `class_weights` preserve it
unconditionally; `make_from_map` preserves it exactly when the class count
stored in the map equals the current one (it overwrites `class_count_`
without touching the catalogs); `classes_` and a successful `unserialize`
establish it only when the catalogs start empty — both append to the
existing catalogs — and, for an unweighted `unserialize`, only when the
buffer length is exactly `8 + class_count` (larger unweighted buffers are
accepted and leave catalogs longer than `class_count_`). -/
theorem claim_C3 :
    (∀ p : ProblemSpec, catalogInvariant p.clear) ∧
    (∀ (p : ProblemSpec) (n : ℤ),
      catalogInvariant p → catalogInvariant (p.column_count n)) ∧
    (∀ (p : ProblemSpec) (ws : List ℚ),
      catalogInvariant p → catalogInvariant (p.class_weights ws)) ∧
    (∀ (p : ProblemSpec) (m : String → List ℚ),
      catalogInvariant p →
      truncQ ((m "class_count_").getD 0 0) = p.class_count_ →
      catalogInvariant (p.make_from_map m)) ∧
    (∀ (p : ProblemSpec) (t : Types_t) (ls : List ℚ),
      catalogInvariant p → p.class_count_ = 0 →
      catalogInvariant (p.classes_ t ls)) ∧
    (∀ (p : ProblemSpec) (buf : List ℚ) (q : ProblemSpec),
      catalogInvariant p → p.class_count_ = 0 →
      p.unserialize buf = .ok q →
      (q.is_weighted = true ∨ (buf.length : ℤ) = 8 + q.class_count_) →
      catalogInvariant q) := by
  refine ⟨?_, ?_, ?_, ?_, ?_, ?_⟩
  · intro p
    exact ⟨[], by simp [ProblemSpec.clear]⟩
  · rintro p n ⟨src, h⟩
    exact ⟨src, h⟩
  · rintro p ws ⟨src, h⟩
    exact ⟨src, h⟩
  · rintro p m ⟨src, hlen, h⟩ hm
    exact ⟨src, by rw [ProblemSpec.make_from_map, hm]; exact hlen, h⟩
  · rintro p t ls ⟨src, hlen, h1, h2, h3, h4, h5, h6, h7, h8, h9, h10⟩ hcc
    have hs : src = [] := by
      rw [← List.length_eq_zero]
      omega
    subst hs
    simp only [List.map_nil] at h1 h2 h3 h4 h5 h6 h7 h8 h9 h10
    refine ⟨ls, by simp [ProblemSpec.classes_], ?_, ?_, ?_, ?_, ?_, ?_, ?_, ?_, ?_, ?_⟩ <;>
      simp [ProblemSpec.classes_, h1, h2, h3, h4, h5, h6, h7, h8, h9, h10]
  · rintro p buf q ⟨src, hlen, h1, h2, h3, h4, h5, h6, h7, h8, h9, h10⟩ hcc h hside
    have hs : src = [] := by
      rw [← List.length_eq_zero]
      omega
    subst hs
    simp only [List.map_nil] at h1 h2 h3 h4 h5 h6 h7 h8 h9 h10
    unfold ProblemSpec.unserialize at h
    by_cases hb1 : (buf.length : ℤ) < 8
    · rw [if_pos hb1] at h
      exact Except.noConfusion h
    rw [if_neg hb1] at h
    by_cases hb2 : (buf.length : ℤ) < 8 + truncQ (buf.getD 1 0)
    · rw [if_pos hb2] at h
      exact Except.noConfusion h
    rw [if_neg hb2] at h
    by_cases hb3 : boolOfQ (buf.getD 7 0) = true
    · rw [if_pos hb3] at h
      by_cases hb4 : (buf.length : ℤ) ≠ 8 + 2 * truncQ (buf.getD 1 0)
      · rw [if_pos hb4] at h
        exact Except.noConfusion h
      · rw [if_neg hb4] at h
        push_neg at hb4
        injection h with h
        subst h
        refine ⟨buf.drop (8 + (truncQ (buf.getD 1 0)).toNat),
                ?_, ?_, ?_, ?_, ?_, ?_, ?_, ?_, ?_, ?_, ?_⟩
        · simp only [List.length_drop]
          omega
        all_goals simp [h1, h2, h3, h4, h5, h6, h7, h8, h9, h10]
    · rw [if_neg hb3] at h
      injection h with h
      subst h
      have hlq : (buf.length : ℤ) = 8 + truncQ (buf.getD 1 0) := by
        rcases hside with hw | he
        · exact absurd hw hb3
        · exact he
      refine ⟨buf.drop 8, ?_, ?_, ?_, ?_, ?_, ?_, ?_, ?_, ?_, ?_, ?_⟩
      · simp only [List.length_drop]
        omega
      all_goals simp [h1, h2, h3, h4, h5, h6, h7, h8, h9, h10]

/-- The spec produced by a successful unweighted `unserialize` of the
10-slot buffer `[0, 2, 0, 0, 0, 2, 10, 0, 4, 9]` into a default spec. -/
def unserializedSpec2 : ProblemSpec :=
  { ProblemSpec.default with
      class_count_ := 2,
      UInt8_classes_ := [4, 9],
      UInt16_classes_ := [4, 9],
      UInt32_classes_ := [4, 9],
      UInt64_classes_ := [4, 9],
      Int8_classes_ := [4, 9],
      Int16_classes_ := [4, 9],
      Int32_classes_ := [4, 9],
      Int64_classes_ := [4, 9],
      double_classes_ := [4, 9],
      float_classes_ := [4, 9] }

/-- C3 witness: each positive part of the amended claim at a concrete
input — `clear`, `column_count`, `class_weights`, a `make_from_map` whose
map carries the matching class count, `classes_` on an empty spec, and an
exact-length unweighted `unserialize` into an empty spec. -/
theorem claim_C3_witness :
    catalogInvariant ProblemSpec.default.clear ∧
    catalogInvariant (specOne.column_count 7) ∧
    catalogInvariant (specOne.class_weights [1]) ∧
    catalogInvariant (specOne.make_from_map (fun _s => [1])) ∧
    catalogInvariant (ProblemSpec.default.classes_ Types_t.Int32_t [0, 1, 2]) ∧
    catalogInvariant unserializedSpec2 :=
  ⟨claim_C3.1 ProblemSpec.default,
   claim_C3.2.1 specOne 7 ⟨[5], by decide⟩,
   claim_C3.2.2.1 specOne [1] ⟨[5], by decide⟩,
   claim_C3.2.2.2.1 specOne (fun _s => [1]) ⟨[5], by decide⟩ (by decide),
   claim_C3.2.2.2.2.1 ProblemSpec.default Types_t.Int32_t [0, 1, 2]
     ⟨[], by decide⟩ (by decide),
   claim_C3.2.2.2.2.2 ProblemSpec.default [0, 2, 0, 0, 0, 2, 10, 0, 4, 9]
     unserializedSpec2 ⟨[], by decide⟩ (by decide) (by rfl)
     (Or.inr (by decide))⟩

theorem to_classlabel_ok {γ : Type} (cat : List γ) (d : γ) (index : ℤ)
    (h0 : 0 ≤ index) (h1 : index < (cat.length : ℤ)) :
    to_classlabel cat index = .ok (cat.getD index.toNat d) := by
  have ht : index.toNat < cat.length := by omega
  rw [to_classlabel, dif_pos ⟨h0, ht⟩, List.get_eq_getElem,
      List.getD_eq_getElem _ _ ht]

theorem to_classlabel_err {γ : Type} (cat : List γ) (index : ℤ)
    (h : ¬(0 ≤ index ∧ index < (cat.length : ℤ))) :
    to_classlabel cat index = .error "IndexOutOfRange" := by
  rw [to_classlabel, dif_neg]
  rintro ⟨ha, hb⟩
  exact h ⟨ha, by omega⟩

/-- C5: on a populated `ProblemSpec` (one satisfying the catalog invariant)
`to_classlabel(index, out)` with `index ∈ [0, class_count)` succeeds and
writes entry `index` of the catalog of the requested type (the final cast
is the identity, the catalog already has the output type), for every one of
the ten supported output types; with `index ∉ [0, class_count)` it fails
with `IndexOutOfRange` for every output type. -/
theorem claim_C5 (p : ProblemSpec) (index : ℤ) (hinv : catalogInvariant p) :
    ((0 ≤ index ∧ index < p.class_count_) →
      (to_classlabel p.UInt8_classes_ index =
         .ok (p.UInt8_classes_.getD index.toNat 0) ∧
       to_classlabel p.UInt16_classes_ index =
         .ok (p.UInt16_classes_.getD index.toNat 0) ∧
       to_classlabel p.UInt32_classes_ index =
         .ok (p.UInt32_classes_.getD index.toNat 0) ∧
       to_classlabel p.UInt64_classes_ index =
         .ok (p.UInt64_classes_.getD index.toNat 0) ∧
       to_classlabel p.Int8_classes_ index =
         .ok (p.Int8_classes_.getD index.toNat 0) ∧
       to_classlabel p.Int16_classes_ index =
         .ok (p.Int16_classes_.getD index.toNat 0) ∧
       to_classlabel p.Int32_classes_ index =
         .ok (p.Int32_classes_.getD index.toNat 0) ∧
       to_classlabel p.Int64_classes_ index =
         .ok (p.Int64_classes_.getD index.toNat 0) ∧
       to_classlabel p.double_classes_ index =
         .ok (p.double_classes_.getD index.toNat 0) ∧
       to_classlabel p.float_classes_ index =
         .ok (p.float_classes_.getD index.toNat 0))) ∧
    (¬(0 ≤ index ∧ index < p.class_count_) →
      (to_classlabel p.UInt8_classes_ index = .error "IndexOutOfRange" ∧
       to_classlabel p.UInt16_classes_ index = .error "IndexOutOfRange" ∧
       to_classlabel p.UInt32_classes_ index = .error "IndexOutOfRange" ∧
       to_classlabel p.UInt64_classes_ index = .error "IndexOutOfRange" ∧
       to_classlabel p.Int8_classes_ index = .error "IndexOutOfRange" ∧
       to_classlabel p.Int16_classes_ index = .error "IndexOutOfRange" ∧
       to_classlabel p.Int32_classes_ index = .error "IndexOutOfRange" ∧
       to_classlabel p.Int64_classes_ index = .error "IndexOutOfRange" ∧
       to_classlabel p.double_classes_ index = .error "IndexOutOfRange" ∧
       to_classlabel p.float_classes_ index = .error "IndexOutOfRange")) := by
  obtain ⟨src, hlen, h1, h2, h3, h4, h5, h6, h7, h8, h9, h10⟩ := hinv
  have l1 : (p.UInt8_classes_.length : ℤ) = p.class_count_ := by
    rw [h1, List.length_map]; exact hlen
  have l2 : (p.UInt16_classes_.length : ℤ) = p.class_count_ := by
    rw [h2, List.length_map]; exact hlen
  have l3 : (p.UInt32_classes_.length : ℤ) = p.class_count_ := by
    rw [h3, List.length_map]; exact hlen
  have l4 : (p.UInt64_classes_.length : ℤ) = p.class_count_ := by
    rw [h4, List.length_map]; exact hlen
  have l5 : (p.Int8_classes_.length : ℤ) = p.class_count_ := by
    rw [h5, List.length_map]; exact hlen
  have l6 : (p.Int16_classes_.length : ℤ) = p.class_count_ := by
    rw [h6, List.length_map]; exact hlen
  have l7 : (p.Int32_classes_.length : ℤ) = p.class_count_ := by
    rw [h7, List.length_map]; exact hlen
  have l8 : (p.Int64_classes_.length : ℤ) = p.class_count_ := by
    rw [h8, List.length_map]; exact hlen
  have l9 : (p.double_classes_.length : ℤ) = p.class_count_ := by
    rw [h9, List.length_map]; exact hlen
  have l10 : (p.float_classes_.length : ℤ) = p.class_count_ := by
    rw [h10, List.length_map]; exact hlen
  constructor
  · rintro ⟨ha, hb⟩
    exact ⟨to_classlabel_ok _ _ _ ha (by omega),
           to_classlabel_ok _ _ _ ha (by omega),
           to_classlabel_ok _ _ _ ha (by omega),
           to_classlabel_ok _ _ _ ha (by omega),
           to_classlabel_ok _ _ _ ha (by omega),
           to_classlabel_ok _ _ _ ha (by omega),
           to_classlabel_ok _ _ _ ha (by omega),
           to_classlabel_ok _ _ _ ha (by omega),
           to_classlabel_ok _ _ _ ha (by omega),
           to_classlabel_ok _ _ _ ha (by omega)⟩
  · intro hn
    exact ⟨to_classlabel_err _ _ (by rw [l1]; exact hn),
           to_classlabel_err _ _ (by rw [l2]; exact hn),
           to_classlabel_err _ _ (by rw [l3]; exact hn),
           to_classlabel_err _ _ (by rw [l4]; exact hn),
           to_classlabel_err _ _ (by rw [l5]; exact hn),
           to_classlabel_err _ _ (by rw [l6]; exact hn),
           to_classlabel_err _ _ (by rw [l7]; exact hn),
           to_classlabel_err _ _ (by rw [l8]; exact hn),
           to_classlabel_err _ _ (by rw [l9]; exact hn),
           to_classlabel_err _ _ (by rw [l10]; exact hn)⟩

/-- A populated spec with the three classes 0, 1, 2 (Int32 input labels). -/
def classesSpec3 : ProblemSpec :=
  ProblemSpec.default.classes_ Types_t.Int32_t [0, 1, 2]

/-- C5 witness: on the populated three-class spec, index 1 succeeds (here
through the Int32 catalog) and index 3 — equal to the class count — fails
with IndexOutOfRange. -/
theorem claim_C5_witness :
    to_classlabel classesSpec3.Int32_classes_ 1 =
      .ok (classesSpec3.Int32_classes_.getD (1 : ℤ).toNat 0) ∧
    to_classlabel classesSpec3.Int32_classes_ 3 = .error "IndexOutOfRange" :=
  ⟨((claim_C5 classesSpec3 1 ⟨[0, 1, 2], by decide⟩).1
      (by decide)).2.2.2.2.2.2.1,
   ((claim_C5 classesSpec3 3 ⟨[0, 1, 2], by decide⟩).2
      (by decide)).2.2.2.2.2.2.1⟩

theorem copyImageInner_trace {α β : Type} (sa : Nat → Nat → α)
    (conv : α → β) (y w : Nat) (st : (Nat → Nat → β) × List (Nat × Nat)) :
    (copyImageInner sa conv y w st).2 =
      st.2 ++ (List.range w).map (fun x => (x, y)) := by
  induction w with
  | zero => simp [copyImageInner]
  | succ w ih => simp [copyImageInner, ih, List.range_succ]

theorem copyImageInner_img {α β : Type} (sa : Nat → Nat → α)
    (conv : α → β) (y w : Nat) (st : (Nat → Nat → β) × List (Nat × Nat))
    (i j : Nat) :
    (copyImageInner sa conv y w st).1 i j =
      if i < w ∧ j = y then conv (sa i j) else st.1 i j := by
  induction w with
  | zero => simp [copyImageInner]
  | succ w ih =>
    simp only [copyImageInner, writePix]
    rw [ih]
    by_cases hj : j = y
    · subst hj
      by_cases hi : i = w
      · subst hi
        simp [Nat.lt_succ_self]
      · simp only [hi, false_and, if_false]
        have hw : i < w + 1 ↔ i < w := by omega
        simp [hw]
    · simp [hj]

theorem copyImageOuter_trace {α β : Type} (sa : Nat → Nat → α)
    (conv : α → β) (w h : Nat) (st : (Nat → Nat → β) × List (Nat × Nat)) :
    (copyImageOuter sa conv w h st).2 = st.2 ++ rowMajor w h := by
  induction h with
  | zero => simp [copyImageOuter, rowMajor]
  | succ h ih =>
    simp [copyImageOuter, rowMajor, copyImageInner_trace, ih]

theorem copyImageOuter_img {α β : Type} (sa : Nat → Nat → α)
    (conv : α → β) (w h : Nat) (st : (Nat → Nat → β) × List (Nat × Nat))
    (i j : Nat) :
    (copyImageOuter sa conv w h st).1 i j =
      if i < w ∧ j < h then conv (sa i j) else st.1 i j := by
  induction h with
  | zero => simp [copyImageOuter]
  | succ h ih =>
    simp only [copyImageOuter]
    rw [copyImageInner_img, ih]
    by_cases hj : j = h
    · subst hj
      simp [Nat.lt_succ_self, lt_irrefl]
    · have hjh : j < h + 1 ↔ j < h := by omega
      simp [hj, hjh]

theorem copyImageIfInner_trace {α β : Type} (sa : Nat → Nat → α)
    (ma : Nat → Nat → Bool) (conv : α → β) (y w : Nat)
    (st : (Nat → Nat → β) × List (Nat × Nat)) :
    (copyImageIfInner sa ma conv y w st).2 =
      st.2 ++ (List.range w).map (fun x => (x, y)) := by
  induction w with
  | zero => simp [copyImageIfInner]
  | succ w ih => simp [copyImageIfInner, ih, List.range_succ]

theorem copyImageIfInner_img {α β : Type} (sa : Nat → Nat → α)
    (ma : Nat → Nat → Bool) (conv : α → β) (y w : Nat)
    (st : (Nat → Nat → β) × List (Nat × Nat)) (i j : Nat) :
    (copyImageIfInner sa ma conv y w st).1 i j =
      if i < w ∧ j = y ∧ ma i j then conv (sa i j) else st.1 i j := by
  induction w with
  | zero => simp [copyImageIfInner]
  | succ w ih =>
    simp only [copyImageIfInner]
    by_cases hm : ma w y
    · rw [if_pos hm]
      simp only [writePix]
      rw [ih]
      by_cases hj : j = y
      · subst hj
        by_cases hi : i = w
        · subst hi
          simp [Nat.lt_succ_self, hm]
        · simp only [hi, false_and, if_false]
          have hw : i < w + 1 ↔ i < w := by omega
          simp [hw]
      · simp [hj]
    · rw [if_neg hm]
      rw [ih]
      by_cases hj : j = y
      · subst hj
        by_cases hi : i = w
        · subst hi
          simp [hm]
        · have hw : i < w + 1 ↔ i < w := by omega
          simp [hw]
      · simp [hj]

theorem copyImageIfOuter_trace {α β : Type} (sa : Nat → Nat → α)
    (ma : Nat → Nat → Bool) (conv : α → β) (w h : Nat)
    (st : (Nat → Nat → β) × List (Nat × Nat)) :
    (copyImageIfOuter sa ma conv w h st).2 = st.2 ++ rowMajor w h := by
  induction h with
  | zero => simp [copyImageIfOuter, rowMajor]
  | succ h ih =>
    simp [copyImageIfOuter, rowMajor, copyImageIfInner_trace, ih]

theorem copyImageIfOuter_img {α β : Type} (sa : Nat → Nat → α)
    (ma : Nat → Nat → Bool) (conv : α → β) (w h : Nat)
    (st : (Nat → Nat → β) × List (Nat × Nat)) (i j : Nat) :
    (copyImageIfOuter sa ma conv w h st).1 i j =
      if i < w ∧ j < h ∧ ma i j then conv (sa i j) else st.1 i j := by
  induction h with
  | zero => simp [copyImageIfOuter]
  | succ h ih =>
    simp only [copyImageIfOuter]
    rw [copyImageIfInner_img, ih]
    by_cases hj : j = h
    · subst hj
      simp [Nat.lt_succ_self, lt_irrefl]
    · have hjh : j < h + 1 ↔ j < h := by omega
      simp [hj, hjh]

theorem rowMajor_count_map (w y x j : Nat) :
    ((List.range w).map (fun x => (x, y))).count (x, j) =
      if x < w ∧ j = y then 1 else 0 := by
  induction w with
  | zero => simp
  | succ w ih =>
    rw [List.range_succ, List.map_append, List.count_append, ih]
    simp only [List.map_cons, List.map_nil]
    rw [List.count_singleton]
    simp only [beq_iff_eq, Prod.mk.injEq]
    split_ifs <;> omega

theorem rowMajor_count (w h x y : Nat) :
    (rowMajor w h).count (x, y) = if x < w ∧ y < h then 1 else 0 := by
  induction h with
  | zero => simp [rowMajor]
  | succ h ih =>
    rw [rowMajor, List.count_append, ih, rowMajor_count_map]
    split_ifs <;> omega

/-- C9: on a `w` by `h` domain `copyImage` visits exactly the row-major
enumeration of the domain (each domain position exactly once, `y` outer,
`x` inner), writing the converted source value at each visited position and
leaving everything outside the domain unchanged; `copyImageIf` visits the
same positions in the same order, writes the converted source value exactly
where the mask is truthy, and leaves the destination unchanged at every
other position. -/
theorem claim_C9 {α β : Type} (w h : Nat) (sa : Nat → Nat → α)
    (conv : α → β) (dest : Nat → Nat → β) (ma : Nat → Nat → Bool) :
    (copyImage w h sa conv dest).2 = rowMajor w h ∧
    (∀ x y : Nat, (rowMajor w h).count (x, y) =
      if x < w ∧ y < h then 1 else 0) ∧
    (∀ x y : Nat, (copyImage w h sa conv dest).1 x y =
      if x < w ∧ y < h then conv (sa x y) else dest x y) ∧
    (copyImageIf w h sa ma conv dest).2 = rowMajor w h ∧
    (∀ x y : Nat, (copyImageIf w h sa ma conv dest).1 x y =
      if x < w ∧ y < h ∧ ma x y then conv (sa x y) else dest x y) := by
  refine ⟨?_, ?_, ?_, ?_, ?_⟩
  · simpa [copyImage] using copyImageOuter_trace sa conv w h (dest, [])
  · intro x y
    exact rowMajor_count w h x y
  · intro x y
    simpa [copyImage] using copyImageOuter_img sa conv w h (dest, []) x y
  · simpa [copyImageIf] using copyImageIfOuter_trace sa ma conv w h (dest, [])
  · intro x y
    simpa [copyImageIf] using copyImageIfOuter_img sa ma conv w h (dest, []) x y

end Vigra

